import Mathlib

/-!
Verification development for the TTT-Course-Builder repository.

The definitions below are a shallow embedding of the TypeScript sources:
  * `src/types.ts`                 — the course data model and `INITIAL_COURSE_DATA`,
                                     plus the IndexedDB helper (`getAllCourses` sorting),
  * `src/services/geminiService.ts`— `safeGenerate` (retry loop with linear backoff)
                                     and the id-attaching transforms of the generators,
  * `src/App.tsx`                  — draft saving, markdown export, JSON import,
                                     list-edit handlers and the drag-and-drop handlers.

Modelling conventions:
  * JavaScript string-or-default (`a || b`) is `jsOrStr`; a `string | null | undefined`
    value is an `Option String`, and the empty string is falsy, exactly as in JS.
  * `Date.now()`, `crypto.randomUUID()` and the network are effects; each embedded
    function takes the values they would produce as explicit arguments.
  * Timestamps are `Nat` milliseconds; `setTimeout` waits are recorded in a list.
-/

/-- JavaScript `a || b` for an optional string `a`:
`null`/`undefined` and the empty string are falsy. -/
def jsOrStr (a : Option String) (b : String) : String :=
  match a with
  | none => b
  | some s => if s = "" then b else s

/-- JavaScript truthiness of a `string | null | undefined` value. -/
def jsTruthyStr (a : Option String) : Bool :=
  match a with
  | none => false
  | some s => s != ""

/-- JavaScript `s.startsWith(p)`, embedded on the character lists of the strings. -/
def strStartsWith (s p : String) : Bool :=
  p.data.isPrefixOf s.data

/-! ## Data model (`src/types.ts`) -/

/-- One row of the session-plan table (`SessionPlanItem` in `src/types.ts`). -/
structure SessionPlanItem where
  id : String
  module : String
  learningPoints : List String
  resources : String
  method : String
  duration : String
  slideNo : String
deriving DecidableEq, Repr

/-- A sub-topic of a module (`SubTopicItem`). -/
structure SubTopicItem where
  id : String
  text : String
deriving DecidableEq, Repr

/-- A module with its sub-topics (`ModuleItem`). -/
structure ModuleItem where
  id : String
  title : String
  subTopics : List SubTopicItem
deriving DecidableEq, Repr

/-- A learning outcome (`LearningOutcomeItem`). -/
structure LearningOutcomeItem where
  id : String
  text : String
deriving DecidableEq, Repr

/-- A review question (`ReviewQuestion`). -/
structure ReviewQuestion where
  id : String
  question : String
deriving DecidableEq, Repr

/-- The course document (`CourseData`).  The optional TS fields `id?` and
`lastModified?` are `Option`s. -/
structure CourseData where
  id : Option String := none
  lastModified : Option Nat := none
  trainerName : String
  courseTitle : String
  duration : String
  location : String
  trainerBio : String
  trainerTitle : String
  learningOutcomes : List LearningOutcomeItem
  iceBreaker : String
  modules : List ModuleItem
  sessionPlan : List SessionPlanItem
  reviewQuestions : List ReviewQuestion
deriving DecidableEq, Repr

/-- Embedding of `INITIAL_COURSE_DATA` from `src/types.ts`. -/
def INITIAL_COURSE_DATA : CourseData :=
  { trainerName := ""
    courseTitle := ""
    duration := ""
    location := ""
    trainerBio := ""
    trainerTitle := ""
    learningOutcomes := [{ id := "lo-1", text := "" }]
    iceBreaker := ""
    modules := [{ id := "mod-1", title := "Module 1",
                  subTopics := [{ id := "sub-1", text := "" }] }]
    sessionPlan := []
    reviewQuestions := [{ id := "rv-1", question := "" }] }

/-! ## `safeGenerate` (`src/services/geminiService.ts`, lines 6–38)

The function reads the API key (localStorage, then `process.env.API_KEY`), throws
immediately when the key is falsy, and otherwise runs a `for (let i = 0; i < retries; i++)`
loop.  Each iteration queries the model; on a thrown error (API failure or
`JSON.parse` failure) it records the error and sleeps `1000 * (i + 1)` ms; on a
response with empty `text` it just continues; on parsed JSON it returns.  After the
loop it throws the recorded last error (or a generic error when none was recorded).

The network and parser are modelled by an oracle giving the outcome of attempt `i`. -/

/-- Outcome of one `generateContent` + `JSON.parse` attempt, with payload type `α`. -/
inductive AttemptOutcome (α : Type) where
  | success (payload : α)
  | emptyText
  | failure (msg : String)
deriving DecidableEq, Repr

/-- Errors thrown by `safeGenerate`. -/
inductive GenError where
  | apiKeyMissing
  | attemptError (msg : String)
  | failedToGenerate
deriving DecidableEq, Repr

/-- The observable result of a `safeGenerate` call: the returned value or thrown
error, the `setTimeout` waits performed (in ms, in order), and how many attempts
were made. -/
structure GenResult (α : Type) where
  result : Except GenError α
  sleeps : List Nat
  attempts : Nat
deriving Repr

/-- The retry loop of `safeGenerate`: `i` is the loop counter, `fuel` the number of
iterations left (`retries - i`), `lastError` the recorded error, `sleeps` and
`attempts` the accumulated observations. -/
def safeGenerateLoop (oracle : Nat → AttemptOutcome α) :
    Nat → Nat → Option String → List Nat → Nat → GenResult α
  | _, 0, lastError, sleeps, attempts =>
    { result := .error (match lastError with
        | some msg => .attemptError msg
        | none => .failedToGenerate)
      sleeps := sleeps, attempts := attempts }
  | i, fuel + 1, lastError, sleeps, attempts =>
    match oracle i with
    | .success payload =>
      { result := .ok payload, sleeps := sleeps, attempts := attempts + 1 }
    | .emptyText =>
      safeGenerateLoop oracle (i + 1) fuel lastError sleeps (attempts + 1)
    | .failure msg =>
      safeGenerateLoop oracle (i + 1) fuel (some msg)
        (sleeps ++ [1000 * (i + 1)]) (attempts + 1)

/-- Embedding of `safeGenerate` with the stored key (localStorage) and environment key made
explicit.  `retries` defaults to 3 as in the source. -/
def safeGenerate (storedKey envKey : Option String) (oracle : Nat → AttemptOutcome α)
    (retries : Nat := 3) : GenResult α :=
  let apiKey := jsOrStr storedKey (jsOrStr envKey "")
  if apiKey = "" then
    { result := .error .apiKeyMissing, sleeps := [], attempts := 0 }
  else
    safeGenerateLoop oracle 0 retries none [] 0

/-! ## Index-aware map

Used to embed the `.map((x, idx) => ...)` calls of the source. -/

/-- Helper: `mapWithIdx f i l` maps `f` over `l`, feeding it the index of each element,
starting at `i`. -/
def mapWithIdx (f : Nat → α → β) : Nat → List α → List β
  | _, [] => []
  | i, a :: as => f i a :: mapWithIdx f (i + 1) as

/-! ## Generator result shaping (`src/services/geminiService.ts`)

`generateCourseStructure` and `generateModulesFromOutcomes` both reshape the
parsed API modules by attaching ids `mod-${Date.now()}-${idx}` and
`sub-${Date.now()}-${idx}-${sIdx}` and cleaning the sub-topic text.  The text
cleaning (`cleanSubTopicText`, a numbering-stripping regex) only rewrites the
text field, so it is passed in as a function. -/

/-- A module as parsed from the model's JSON (after the
`m.subTopics || m.subtopics || []` coalescing). -/
structure ApiModule where
  title : String
  subTopics : List String
deriving DecidableEq, Repr

/-- The id-attaching transform shared by `generateCourseStructure` (lines 105-113)
and `generateModulesFromOutcomes` (lines 159-166).  `now` is `Date.now()` and
`cleanFn` is `cleanSubTopicText`. -/
def attachModuleIds (cleanFn : String → String) (now : Nat) (ms : List ApiModule) :
    List ModuleItem :=
  mapWithIdx (fun idx m =>
    { id := "mod-" ++ toString now ++ "-" ++ toString idx
      title := m.title
      subTopics := mapWithIdx (fun sIdx t =>
        { id := "sub-" ++ toString now ++ "-" ++ toString idx ++ "-" ++ toString sIdx
          text := cleanFn t }) 0 m.subTopics }) 0 ms

/-! ## Local persistence (`src/services/db.ts`, bundled in `src/types.ts` lines 310-324)

`getAllCourses` reads every record of the object store and sorts the returned
array with the comparator `(b.lastModified || 0) - (a.lastModified || 0)`
(newest first; JavaScript's sort is stable).  The stored records themselves are
not touched; only the result array is ordered. -/

/-- The sort key `(c.lastModified || 0)` used by `getAllCourses`. -/
def courseSortKey (c : CourseData) : Nat :=
  c.lastModified.getD 0

/-- Embedding of `getAllCourses`, with the store's contents made explicit: sorts the records
newest-first by `lastModified` (missing timestamps count as 0). -/
def getAllCourses (records : List CourseData) : List CourseData :=
  records.mergeSort (fun a b => decide (courseSortKey b ≤ courseSortKey a))

/-! ## Draft saving (`src/App.tsx`, `handleSaveDraft`, lines 99-116)

`courseToSave = { ...data, id: data.id || crypto.randomUUID(), lastModified: Date.now() }`
is both stored (`saveCourseToDB`) and installed (`setData`). -/

/-- The document built by `handleSaveDraft`: `now` is `Date.now()` and `freshId`
is the `crypto.randomUUID()` value. -/
def saveDraftDoc (d : CourseData) (now : Nat) (freshId : String) : CourseData :=
  { d with id := some (jsOrStr d.id freshId), lastModified := some now }

/-! ## Markdown export (`src/App.tsx`, `exportToMarkdown`, lines 165-211) -/

/-- Character-level embedding of
`(s || '').replace(/\|/g, '\\|').replace(/\n/g, '<br>')`: every pipe is escaped
with a backslash and every newline becomes `<br>` (the two global replacements
do not interact, so one pass is equivalent). -/
def cleanChars : List Char → List Char
  | [] => []
  | c :: cs =>
    if c = '|' then '\\' :: '|' :: cleanChars cs
    else if c = '\n' then '<' :: 'b' :: 'r' :: '>' :: cleanChars cs
    else c :: cleanChars cs

/-- The `clean` helper of `exportToMarkdown`. -/
def clean (s : String) : String :=
  String.mk (cleanChars s.data)

/-- The session-plan table header line of the markdown template. -/
def sessionPlanHeaderRow : String :=
  "| Learning Points / Content | Resources | Method / Activities | Duration | Slide No. |"

/-- The session-plan table separator line of the markdown template. -/
def sessionPlanSeparatorRow : String :=
  "| ------------------------- | :-------: | ------------------- | :------: | :-------: |"

/-- One data row of the session-plan table, as built by `exportToMarkdown`
(line 169 of `src/App.tsx`). -/
def sessionPlanDataRow (row : SessionPlanItem) : String :=
  "| " ++ clean row.module ++ " | " ++ clean (String.intercalate "; " row.learningPoints)
    ++ " | " ++ clean row.resources ++ " | " ++ clean row.method ++ " | "
    ++ clean row.duration ++ " | " ++ clean row.slideNo ++ " |"

/-- The full markdown document produced by `exportToMarkdown`. -/
def exportToMarkdown (course : CourseData) : String :=
  let tableRows := String.intercalate "\n" (course.sessionPlan.map sessionPlanDataRow)
  let outcomesList := String.intercalate "\n"
    (mapWithIdx (fun i lo => toString (i + 1) ++ ". " ++ lo.text) 0 course.learningOutcomes)
  let moduleBlocks := String.intercalate "\n\n"
    (mapWithIdx (fun i m =>
      "### " ++ toString (i + 1) ++ ". " ++ m.title ++ "\n"
        ++ String.intercalate "\n"
          (mapWithIdx (fun j st =>
            "- " ++ toString (i + 1) ++ "." ++ toString (j + 1) ++ " " ++ st.text)
            0 m.subTopics)) 0 course.modules)
  let questionsList := String.intercalate "\n"
    (mapWithIdx (fun i q => toString (i + 1) ++ ". " ++ q.question) 0 course.reviewQuestions)
  "# " ++ jsOrStr (some course.courseTitle) "Untitled Course"
    ++ "\n\n**Trainer:** " ++ course.trainerName
    ++ "  \n**Title:** " ++ course.trainerTitle
    ++ "  \n**Duration:** " ++ course.duration
    ++ "  \n**Location:** " ++ course.location
    ++ "\n\n---\n\n## Trainer Profile\n" ++ course.trainerBio
    ++ "\n\n## Learning Outcomes\nAt the end of this session, all trainees will be able to:\n"
    ++ outcomesList
    ++ "\n\n## Ice Breaker\n" ++ course.iceBreaker
    ++ "\n\n## Content Mapping\n" ++ moduleBlocks
    ++ "\n\n## Session Plan\n" ++ sessionPlanHeaderRow ++ "\n" ++ sessionPlanSeparatorRow
    ++ "\n" ++ tableRows
    ++ "\n\n## Review Outcome / Checklist\n" ++ questionsList ++ "\n"

/-- Number of pipe characters in a string; a well-formed table line with `n`
columns and no pipes inside cells has `n + 1` of them. -/
def pipeCount (s : String) : Nat :=
  s.data.count '|'

/-! ## New-draft creation and list-edit handlers (`src/App.tsx`) -/

/-- The defaults object persisted by `handleSaveSettings` under
`hrdf_user_defaults` (each field present when saved, absent when localStorage is
empty). -/
structure UserDefaults where
  trainerName : Option String := none
  trainerTitle : Option String := none
  trainerBio : Option String := none
  location : Option String := none
deriving DecidableEq, Repr

/-- Embedding of `getInitialData` (lines 25-36): spreads `INITIAL_COURSE_DATA`, then the saved
defaults, then replaces the three item lists with fresh-id singletons. -/
def getInitialData (defaults : UserDefaults) (now : Nat) : CourseData :=
  { INITIAL_COURSE_DATA with
    trainerName := defaults.trainerName.getD INITIAL_COURSE_DATA.trainerName
    trainerTitle := defaults.trainerTitle.getD INITIAL_COURSE_DATA.trainerTitle
    trainerBio := defaults.trainerBio.getD INITIAL_COURSE_DATA.trainerBio
    location := defaults.location.getD INITIAL_COURSE_DATA.location
    learningOutcomes := [{ id := "lo-" ++ toString now, text := "" }]
    modules := [{ id := "mod-" ++ toString now, title := "Module 1",
                  subTopics := [{ id := "sub-" ++ toString now, text := "" }] }]
    reviewQuestions := [{ id := "rv-" ++ toString now, question := "" }] }

/-- Embedding of `addOutcome` (lines 258-263): appends `{ id: `lo-${Date.now()}`, text: "" }`. -/
def addOutcome (doc : CourseData) (now : Nat) : CourseData :=
  { doc with learningOutcomes :=
      doc.learningOutcomes ++ [{ id := "lo-" ++ toString now, text := "" }] }

/-- Embedding of `addModule` (lines 277-286). -/
def addModule (doc : CourseData) (now : Nat) : CourseData :=
  { doc with modules :=
      doc.modules ++ [{ id := "mod-" ++ toString now, title := "New Module",
                        subTopics := [{ id := "sub-" ++ toString now, text := "" }] }] }

/-- Embedding of `addSubTopic` (lines 299-303): pushes a fresh sub-topic onto the sub-topic
list of the module at `modIndex`. -/
def addSubTopic (doc : CourseData) (modIndex : Nat) (now : Nat) : CourseData :=
  { doc with modules :=
      mapWithIdx (fun j m =>
        if j = modIndex then
          { m with subTopics := m.subTopics ++ [{ id := "sub-" ++ toString now, text := "" }] }
        else m) 0 doc.modules }

/-! ## Drag-and-drop handlers (`src/App.tsx`, lines 325-399)

`arrayMove` is dnd-kit's `remove at from / reinsert at to` helper.  The embedding
below agrees with it whenever `from` is a valid index and `to` is at most the
last index — which holds whenever both the dragged and the target identifier
occur in the list, the only situations the claims are about.  The handlers are
modelled for events whose `over` is an actual item (dnd-kit also delivers
`over = null` drops, which the claims do not touch). -/

/-- Embedding of dnd-kit `arrayMove` for in-range indices: remove the element at `i`, reinsert
it at position `j` of the shortened list. -/
def arrayMove (l : List α) (i j : Nat) : List α :=
  match l.get? i with
  | some x => (l.eraseIdx i).insertIdx j x
  | none => l

/-- Embedding of `handleDragEndOutcomes` (lines 325-337). -/
def handleDragEndOutcomes (doc : CourseData) (activeId overId : String) : CourseData :=
  if activeId != overId then
    { doc with
      learningOutcomes := arrayMove doc.learningOutcomes
        (doc.learningOutcomes.findIdx (fun item => item.id == activeId))
        (doc.learningOutcomes.findIdx (fun item => item.id == overId)) }
  else doc

/-- Embedding of `handleDragEndSessionPlan` (lines 387-399). -/
def handleDragEndSessionPlan (doc : CourseData) (activeId overId : String) : CourseData :=
  if activeId != overId then
    { doc with
      sessionPlan := arrayMove doc.sessionPlan
        (doc.sessionPlan.findIdx (fun item => item.id == activeId))
        (doc.sessionPlan.findIdx (fun item => item.id == overId)) }
  else doc

/-- Which branch of `handleDragEndModulesStep` a dragged identifier selects. -/
inductive ModulesDragCase where
  | moduleDrag
  | subDrag
  | otherDrag
deriving DecidableEq, Repr

/-- The id-based dispatch at the top of `handleDragEndModulesStep`
(lines 347 and 363): `activeId.startsWith('mod-')` selects module reordering,
otherwise `activeId.startsWith('sub-')` selects sub-topic reordering. -/
def modulesDragDispatch (activeId : String) : ModulesDragCase :=
  if strStartsWith activeId "mod-" then .moduleDrag
  else if strStartsWith activeId "sub-" then .subDrag
  else .otherDrag

/-- Embedding of `handleDragEndModulesStep` (lines 339-385). -/
def handleDragEndModulesStep (doc : CourseData) (activeId overId : String) : CourseData :=
  match modulesDragDispatch activeId with
  | .moduleDrag =>
    if strStartsWith overId "mod-" then
      { doc with
        modules := arrayMove doc.modules
          (doc.modules.findIdx (fun m => m.id == activeId))
          (doc.modules.findIdx (fun m => m.id == overId)) }
    else doc
  | .subDrag =>
    match doc.modules.findIdx? (fun m => m.subTopics.any (fun s => s.id == activeId)) with
    | none => doc
    | some modIndex =>
      match doc.modules.get? modIndex with
      | none => doc
      | some targetModule =>
        if targetModule.subTopics.any (fun s => s.id == overId) then
          { doc with
            modules := doc.modules.set modIndex
              { targetModule with
                subTopics := arrayMove targetModule.subTopics
                  (targetModule.subTopics.findIdx (fun s => s.id == activeId))
                  (targetModule.subTopics.findIdx (fun s => s.id == overId)) } }
        else doc
  | .otherDrag => doc

/-! ## JSON import / export (`src/App.tsx`, lines 152-163 and 217-245)

A parsed `.json` file is modelled as a record of optional fields: `none` is an
absent (or `null`) key, which is exactly what the handler's truthiness checks
and the spread distinguish.  In JavaScript an array value is always truthy, so
the `json.modules && json.sessionPlan` guard of `handleFileImport` is presence
of both fields.  A failed `JSON.parse` is the `none` case of the handler's
argument. -/

/-- A course document as parsed from (or serialized to) a `.json` file. -/
structure CourseFile where
  id : Option String := none
  lastModified : Option Nat := none
  trainerName : Option String := none
  courseTitle : Option String := none
  duration : Option String := none
  location : Option String := none
  trainerBio : Option String := none
  trainerTitle : Option String := none
  learningOutcomes : Option (List LearningOutcomeItem) := none
  iceBreaker : Option String := none
  modules : Option (List ModuleItem) := none
  sessionPlan : Option (List SessionPlanItem) := none
  reviewQuestions : Option (List ReviewQuestion) := none
deriving DecidableEq, Repr

/-- Embedding of the `JSON.stringify` of a course document, as produced by `exportToJSON`
(lines 152-163): every present field of the document appears in the file. -/
def courseToFile (c : CourseData) : CourseFile :=
  { id := c.id
    lastModified := c.lastModified
    trainerName := some c.trainerName
    courseTitle := some c.courseTitle
    duration := some c.duration
    location := some c.location
    trainerBio := some c.trainerBio
    trainerTitle := some c.trainerTitle
    learningOutcomes := some c.learningOutcomes
    iceBreaker := some c.iceBreaker
    modules := some c.modules
    sessionPlan := some c.sessionPlan
    reviewQuestions := some c.reviewQuestions }

/-- Embedding of `handleFileImport` (lines 217-245): `parsed` is the `JSON.parse` result
(`none` on a parse failure), `now` is `Date.now()`, `freshId` the
`crypto.randomUUID()` value.  Returns the record handed to `saveCourseToDB`
(`none` when nothing is stored) and the alert messages shown. -/
def handleFileImport (parsed : Option CourseFile) (now : Nat) (freshId : String) :
    Option CourseFile × List String :=
  match parsed with
  | none => (none, ["Failed to parse JSON file."])
  | some json =>
    if json.modules.isSome && json.sessionPlan.isSome then
      (some { json with
              id := some (jsOrStr json.id freshId)
              lastModified := some now
              courseTitle := some (jsOrStr json.courseTitle "Imported Course" ++ " (Imported)") },
       ["Course imported successfully!"])
    else
      (none, ["Invalid course file format."])

/-! ## AI actions at the call sites (`src/App.tsx`, lines 403-466)

Each action awaits one generation call inside `try { ... } catch (e) {
console.error(e); alert(...); }`; `setData` is only reached on success.  The
generation call's outcome is an explicit `Except` argument: `.error` is any
throw out of the service layer (missing key, network failure, malformed JSON —
the service re-throws them all).  `logs` counts the `console.error` calls. -/

/-- Observable outcome of one UI action: the document installed afterwards, the
alerts shown, and the number of errors logged. -/
structure ActionOut where
  doc : CourseData
  alerts : List String
  logs : Nat
deriving DecidableEq, Repr

/-- The `Partial<CourseData>` object returned by `generateCourseStructure`:
API-provided scalar fields plus the id-attached lists. -/
structure GeneratedCourse where
  courseTitle : Option String := none
  duration : Option String := none
  iceBreaker : Option String := none
  learningOutcomes : List LearningOutcomeItem
  modules : List ModuleItem
deriving DecidableEq, Repr

/-- The `setData(prev => ({ ...prev, ...generated }))` merge of `quickStart`:
fields present in the generated object override the previous draft. -/
def mergeGenerated (prev : CourseData) (g : GeneratedCourse) : CourseData :=
  { prev with
    courseTitle := g.courseTitle.getD prev.courseTitle
    duration := g.duration.getD prev.duration
    iceBreaker := g.iceBreaker.getD prev.iceBreaker
    learningOutcomes := g.learningOutcomes
    modules := g.modules }

/-- Embedding of `quickStart` (lines 403-416). -/
def quickStart (topicPrompt : String) (doc : CourseData)
    (gen : Except String GeneratedCourse) : ActionOut :=
  if topicPrompt = "" then { doc := doc, alerts := [], logs := 0 }
  else
    match gen with
    | .ok g => { doc := mergeGenerated doc g, alerts := [], logs := 0 }
    | .error _ =>
      { doc := doc
        alerts := ["Failed to generate course structure. Check your API Key or try again."]
        logs := 1 }

/-- Embedding of `generateModules` (lines 418-433). -/
def generateModulesAction (doc : CourseData)
    (gen : Except String (List ModuleItem)) : ActionOut :=
  if doc.learningOutcomes.length == 0 || doc.courseTitle == "" then
    { doc := doc
      alerts := ["Please ensure you have a Course Title and Learning Outcomes defined."]
      logs := 0 }
  else
    match gen with
    | .ok newModules => { doc := { doc with modules := newModules }, alerts := [], logs := 0 }
    | .error _ =>
      { doc := doc
        alerts := ["Failed to generate modules. Check your API Key or try again."]
        logs := 1 }

/-- Embedding of `autoFillSessionPlan` (lines 435-450). -/
def autoFillSessionPlan (doc : CourseData)
    (gen : Except String (List SessionPlanItem)) : ActionOut :=
  if doc.modules.length == 0 then
    { doc := doc, alerts := ["Please define modules first."], logs := 0 }
  else
    match gen with
    | .ok plan => { doc := { doc with sessionPlan := plan }, alerts := [], logs := 0 }
    | .error _ =>
      { doc := doc
        alerts := ["Failed to generate session plan. Check your API Key or try again."]
        logs := 1 }

/-- Embedding of `autoGenerateQuestions` (lines 452-466). -/
def autoGenerateQuestions (doc : CourseData)
    (gen : Except String (List String)) : ActionOut :=
  match gen with
  | .ok qs =>
    { doc := { doc with
        reviewQuestions := mapWithIdx (fun i q => { id := "gen-" ++ toString i, question := q }) 0 qs }
      alerts := [], logs := 0 }
  | .error _ =>
    { doc := doc
      alerts := ["Failed to generate questions. Check your API Key or try again."]
      logs := 1 }

/-! ## Helper lemmas -/

/-- Inserting at a position within the list is a permutation of consing. -/
theorem insertIdx_perm_cons (x : α) : ∀ (l : List α) (n : Nat), n ≤ l.length →
    (l.insertIdx n x).Perm (x :: l) := by
  intro l
  induction l with
  | nil =>
    intro n hn
    simp only [List.length_nil, Nat.le_zero] at hn
    subst hn; simp
  | cons a t ih =>
    intro n hn
    cases n with
    | zero => simp
    | succ m =>
      simp only [List.insertIdx_succ_cons]
      exact ((ih m (by simpa using hn)).cons a).trans (List.Perm.swap x a t)

/-- Removing an element and consing it back is a permutation. -/
theorem cons_get_eraseIdx_perm : ∀ (l : List α) (i : Nat) (x : α), l.get? i = some x →
    (x :: l.eraseIdx i).Perm l := by
  intro l
  induction l with
  | nil => intro i x h; simp at h
  | cons a t ih =>
    intro i x h
    cases i with
    | zero => simp at h; subst h; simp
    | succ m =>
      simp only [List.get?_cons_succ] at h
      simp only [List.eraseIdx_cons_succ]
      exact (List.Perm.swap a x _).trans ((ih m x h).cons a)

/-- Applying `arrayMove` with in-range indices permutes the list. -/
theorem arrayMove_perm (l : List α) (i j : Nat) (hi : i < l.length) (hj : j < l.length) :
    (arrayMove l i j).Perm l := by
  have hget : l.get? i = some (l.get ⟨i, hi⟩) := List.get?_eq_get hi
  unfold arrayMove
  rw [hget]
  have hlen : (l.eraseIdx i).length = l.length - 1 := by
    rw [List.length_eraseIdx]; simp [hi]
  have hj' : j ≤ (l.eraseIdx i).length := by omega
  exact (insertIdx_perm_cons _ _ _ hj').trans (cons_get_eraseIdx_perm l i _ hget)

/-- Moving an element onto its own position is the identity. -/
theorem arrayMove_same (l : List α) (i : Nat) : arrayMove l i i = l := by
  unfold arrayMove
  induction l generalizing i with
  | nil => simp
  | cons a t ih =>
    cases i with
    | zero => simp
    | succ m =>
      simp only [List.get?_cons_succ, List.eraseIdx_cons_succ]
      cases h : t.get? m with
      | none => simp
      | some x =>
        simp only [List.insertIdx_succ_cons, List.cons.injEq, true_and]
        have := ih m
        rw [h] at this
        simpa using this

/-- A list is a Boolean prefix of itself followed by anything. -/
theorem isPrefixOf_append_left (l t : List Char) : l.isPrefixOf (l ++ t) = true := by
  induction l with
  | nil => simp [List.isPrefixOf]
  | cons a as ih => simp [List.isPrefixOf, ih]

/-- A string starts with any string it extends. -/
theorem strStartsWith_append (p r : String) : strStartsWith (p ++ r) p = true := by
  unfold strStartsWith
  rw [String.data_append]
  exact isPrefixOf_append_left _ _

/-- No string starts with both `sub-` and `mod-`. -/
theorem sub_not_mod (s : String) (h : strStartsWith s "sub-" = true) :
    strStartsWith s "mod-" = false := by
  obtain ⟨l⟩ := s
  have hs : ("sub-" : String).data = ['s', 'u', 'b', '-'] := rfl
  have hm : ("mod-" : String).data = ['m', 'o', 'd', '-'] := rfl
  unfold strStartsWith at h ⊢
  rw [hs] at h
  rw [hm]
  cases l with
  | nil => simp [List.isPrefixOf] at h
  | cons c cs =>
    simp only [List.isPrefixOf, Bool.and_eq_true, beq_iff_eq] at h ⊢
    rw [← h.1]
    simp

/-- Every element of `mapWithIdx f i l` is `f j a` for some `a ∈ l`. -/
theorem mem_mapWithIdx {f : Nat → α → β} :
    ∀ {i : Nat} {l : List α} {b : β}, b ∈ mapWithIdx f i l → ∃ j a, a ∈ l ∧ b = f j a := by
  intro i l
  induction l generalizing i with
  | nil => intro b h; simp [mapWithIdx] at h
  | cons x xs ih =>
    intro b h
    simp only [mapWithIdx, List.mem_cons] at h
    rcases h with h | h
    · exact ⟨i, x, List.mem_cons_self x xs, h⟩
    · obtain ⟨j, a, ha, hb⟩ := ih h
      exact ⟨j, a, List.mem_cons_of_mem x ha, hb⟩

/-- The retry loop makes at most `fuel` further attempts. -/
theorem safeGenerateLoop_attempts_le (oracle : Nat → AttemptOutcome α) :
    ∀ (fuel i : Nat) (lastE : Option String) (sl : List Nat) (acc : Nat),
      (safeGenerateLoop oracle i fuel lastE sl acc).attempts ≤ acc + fuel := by
  intro fuel
  induction fuel with
  | zero => intro i lastE sl acc; simp [safeGenerateLoop]
  | succ n ih =>
    intro i lastE sl acc
    cases h : oracle i with
    | success p =>
      simp only [safeGenerateLoop, h]
      omega
    | emptyText =>
      have := ih (i + 1) lastE sl (acc + 1)
      simp only [safeGenerateLoop, h]
      omega
    | failure m =>
      have := ih (i + 1) (some m) (sl ++ [1000 * (i + 1)]) (acc + 1)
      simp only [safeGenerateLoop, h]
      omega

/-! ## C1 — retry with linear backoff, last error rethrown -/

/-- C1: with a configured key, when the underlying API call or JSON parsing
fails at every attempt, `safeGenerate` makes its 3 attempts, waits 1s after the
1st failure, 2s after the 2nd and 3s after the 3rd, and then throws the error of
the last attempt; moreover no call ever makes more than 3 attempts. -/
theorem safeGenerate_retry_backoff (storedKey envKey : Option String)
    (oracle : Nat → AttemptOutcome α) (e : Nat → String)
    (hkey : jsOrStr storedKey (jsOrStr envKey "") ≠ "")
    (hfail : ∀ i, i < 3 → oracle i = .failure (e i)) :
    safeGenerate storedKey envKey oracle 3 =
      { result := .error (.attemptError (e 2)), sleeps := [1000, 2000, 3000], attempts := 3 }
    ∧ ∀ oracle2 : Nat → AttemptOutcome α, (safeGenerate storedKey envKey oracle2 3).attempts ≤ 3 := by
  constructor
  · have h0 := hfail 0 (by omega)
    have h1 := hfail 1 (by omega)
    have h2 := hfail 2 (by omega)
    simp only [safeGenerate]
    rw [if_neg hkey]
    rw [show (3 : Nat) = 0 + 1 + 1 + 1 from rfl]
    simp only [safeGenerateLoop, h0, h1, h2]
    norm_num
  · intro oracle2
    simp only [safeGenerate]
    split
    · simp
    · simpa using safeGenerateLoop_attempts_le oracle2 3 0 none [] 0

/-- Witness for C1 at a concrete key and a concretely failing oracle. -/
theorem safeGenerate_retry_backoff_witness :
    safeGenerate (some "key") none ((fun _ => .failure "boom") : Nat → AttemptOutcome Nat) 3 =
      { result := .error (.attemptError "boom"), sleeps := [1000, 2000, 3000], attempts := 3 } :=
  (safeGenerate_retry_backoff (some "key") none (fun _ => .failure "boom") (fun _ => "boom")
    (by decide) (fun _ _ => rfl)).1

/-! ## C3 — a missing API key fails immediately, not after the retries -/

/-- C3 counterexample: with no key configured anywhere, the call throws
the "API key missing" error having made 0 attempts and no backoff waits — the
retry loop never runs, contradicting "reported only after the retry loop has
run its attempts". -/
theorem safeGenerate_missing_key_counterexample :
    (safeGenerate none none ((fun _ => .failure "boom") : Nat → AttemptOutcome Nat) 3).result
        = .error .apiKeyMissing
    ∧ (safeGenerate none none ((fun _ => .failure "boom") : Nat → AttemptOutcome Nat) 3).attempts = 0
    ∧ (safeGenerate none none ((fun _ => .failure "boom") : Nat → AttemptOutcome Nat) 3).sleeps = []
    ∧ (safeGenerate none none ((fun _ => .failure "boom") : Nat → AttemptOutcome Nat) 3).attempts ≠ 3 := by
  refine ⟨rfl, rfl, rfl, by decide⟩

/-- C3 amended: when no API key is configured (neither in local storage
nor in the environment), `safeGenerate` throws the "API key missing" error
immediately: zero attempts are made and no backoff waits occur. -/
theorem safeGenerate_missing_key_fails_immediately (storedKey envKey : Option String)
    (oracle : Nat → AttemptOutcome α)
    (hkey : jsOrStr storedKey (jsOrStr envKey "") = "") :
    safeGenerate storedKey envKey oracle 3 =
      { result := .error .apiKeyMissing, sleeps := [], attempts := 0 } := by
  simp only [safeGenerate]
  rw [if_pos hkey]

/-- Witness for the amended C3. -/
theorem safeGenerate_missing_key_fails_immediately_witness :
    safeGenerate (some "") none ((fun _ => .failure "boom") : Nat → AttemptOutcome Nat) 3 =
      { result := .error .apiKeyMissing, sleeps := [], attempts := 0 } :=
  safeGenerate_missing_key_fails_immediately (some "") none (fun _ => .failure "boom") (by decide)

/-! ## C2 — failed AI actions log, alert once, and leave the document unchanged -/

/-- C2: for each of the four AI actions, when the underlying generation call
throws (for any reason), the action catches the error at the call site, logs it
once, shows exactly one alert, and installs a document identical to the one it
started from. -/
theorem aiActions_failure_frame :
    (∀ (t : String) (doc : CourseData) (msg : String), t ≠ "" →
        quickStart t doc (.error msg) =
          { doc := doc
            alerts := ["Failed to generate course structure. Check your API Key or try again."]
            logs := 1 })
    ∧ (∀ (doc : CourseData) (msg : String),
        (doc.learningOutcomes.length == 0 || doc.courseTitle == "") = false →
        generateModulesAction doc (.error msg) =
          { doc := doc
            alerts := ["Failed to generate modules. Check your API Key or try again."]
            logs := 1 })
    ∧ (∀ (doc : CourseData) (msg : String), (doc.modules.length == 0) = false →
        autoFillSessionPlan doc (.error msg) =
          { doc := doc
            alerts := ["Failed to generate session plan. Check your API Key or try again."]
            logs := 1 })
    ∧ (∀ (doc : CourseData) (msg : String),
        autoGenerateQuestions doc (.error msg) =
          { doc := doc
            alerts := ["Failed to generate questions. Check your API Key or try again."]
            logs := 1 }) := by
  refine ⟨?_, ?_, ?_, ?_⟩
  · intro t doc msg ht
    simp [quickStart, ht]
  · intro doc msg h
    simp [generateModulesAction, h]
  · intro doc msg h
    simp [autoFillSessionPlan, h]
  · intro doc msg
    rfl

/-- Witness for C2: each action, run on a concrete document with a failing
generation call, alerts once and leaves the document untouched. -/
theorem aiActions_failure_frame_witness :
    quickStart "Excel" INITIAL_COURSE_DATA (.error "boom") =
      { doc := INITIAL_COURSE_DATA
        alerts := ["Failed to generate course structure. Check your API Key or try again."]
        logs := 1 }
    ∧ generateModulesAction { INITIAL_COURSE_DATA with courseTitle := "T" } (.error "boom") =
      { doc := { INITIAL_COURSE_DATA with courseTitle := "T" }
        alerts := ["Failed to generate modules. Check your API Key or try again."]
        logs := 1 }
    ∧ autoFillSessionPlan INITIAL_COURSE_DATA (.error "boom") =
      { doc := INITIAL_COURSE_DATA
        alerts := ["Failed to generate session plan. Check your API Key or try again."]
        logs := 1 }
    ∧ autoGenerateQuestions INITIAL_COURSE_DATA (.error "boom") =
      { doc := INITIAL_COURSE_DATA
        alerts := ["Failed to generate questions. Check your API Key or try again."]
        logs := 1 } :=
  ⟨aiActions_failure_frame.1 "Excel" INITIAL_COURSE_DATA "boom" (by decide),
   aiActions_failure_frame.2.1 { INITIAL_COURSE_DATA with courseTitle := "T" } "boom" (by decide),
   aiActions_failure_frame.2.2.1 INITIAL_COURSE_DATA "boom" (by decide),
   aiActions_failure_frame.2.2.2 INITIAL_COURSE_DATA "boom"⟩

/-! ## C6 — getAllCourses returns all records, sorted newest first -/

/-- C6: `getAllCourses` returns a permutation of the stored records (so
every persisted record is returned, none modified), ordered by the
`lastModified` key descending (missing timestamps count as 0). -/
theorem getAllCourses_sorted_desc_perm (records : List CourseData) :
    (getAllCourses records).Perm records
    ∧ List.Pairwise (fun a b => courseSortKey b ≤ courseSortKey a) (getAllCourses records) := by
  constructor
  · exact List.mergeSort_perm records _
  · have h := @List.sorted_mergeSort CourseData
      (fun a b => decide (courseSortKey b ≤ courseSortKey a)) ?_ ?_ records
    · simpa using h
    · intro a b c hab hbc
      simp only [decide_eq_true_eq] at hab hbc ⊢
      omega
    · intro a b
      simp only [Bool.or_eq_true, decide_eq_true_eq]
      omega

/-! ## C5 — saving a draft stamps the time and fills in a missing id -/

/-- C5 counterexample: a document whose id is present but empty does not
keep its id on save: `data.id || crypto.randomUUID()` treats the empty string
as absent and installs the freshly generated identifier instead. -/
theorem saveDraftDoc_empty_id_counterexample :
    (({ INITIAL_COURSE_DATA with id := some "" } : CourseData).id).isSome = true
    ∧ (saveDraftDoc { INITIAL_COURSE_DATA with id := some "" } 42 "fresh-uuid").id = some "fresh-uuid"
    ∧ (saveDraftDoc { INITIAL_COURSE_DATA with id := some "" } 42 "fresh-uuid").id
        ≠ ({ INITIAL_COURSE_DATA with id := some "" } : CourseData).id := by
  refine ⟨rfl, by decide, by decide⟩

/-- C5 amended: the saved document's `lastModified` is the save time, its
id is the old id when that id is present and non-empty and the freshly generated
identifier otherwise, and every other field is unchanged. -/
theorem saveDraftDoc_spec (d : CourseData) (now : Nat) (freshId : String) :
    (saveDraftDoc d now freshId).lastModified = some now
    ∧ (jsTruthyStr d.id = true → (saveDraftDoc d now freshId).id = d.id)
    ∧ (jsTruthyStr d.id = false → (saveDraftDoc d now freshId).id = some freshId)
    ∧ saveDraftDoc d now freshId =
        { d with id := (saveDraftDoc d now freshId).id, lastModified := some now } := by
  refine ⟨rfl, ?_, ?_, rfl⟩
  · intro h
    cases hid : d.id with
    | none => rw [hid] at h; simp [jsTruthyStr] at h
    | some s =>
      rw [hid] at h
      simp only [jsTruthyStr, bne_iff_ne, ne_eq, decide_eq_true_eq] at h
      simp [saveDraftDoc, jsOrStr, hid, h]
  · intro h
    cases hid : d.id with
    | none => simp [saveDraftDoc, jsOrStr, hid]
    | some s =>
      rw [hid] at h
      simp only [jsTruthyStr, bne_iff_ne, ne_eq, decide_eq_true_eq] at h
      simp at h
      simp [saveDraftDoc, jsOrStr, hid, h]

/-- Witness for the amended C5. -/
theorem saveDraftDoc_spec_witness :
    (saveDraftDoc INITIAL_COURSE_DATA 42 "u").lastModified = some 42
    ∧ (saveDraftDoc INITIAL_COURSE_DATA 42 "u").id = some "u"
    ∧ (saveDraftDoc { INITIAL_COURSE_DATA with id := some "abc" } 42 "u").id = some "abc" :=
  ⟨(saveDraftDoc_spec INITIAL_COURSE_DATA 42 "u").1,
   (saveDraftDoc_spec INITIAL_COURSE_DATA 42 "u").2.2.1 (by decide),
   ((saveDraftDoc_spec { INITIAL_COURSE_DATA with id := some "abc" } 42 "u").2.1 (by decide)).trans rfl⟩

/-! ## C8 — adding an outcome appends one empty item with id `lo-<timestamp>` -/

/-- C8 counterexample: the appended identifier is `lo-` plus the current
`Date.now()` value; when an existing outcome already carries that identifier
(here one created at the same millisecond 5), the "fresh" id duplicates it, so
the new id is not distinct from every identifier already in the list. -/
theorem addOutcome_duplicate_id_counterexample :
    (addOutcome { INITIAL_COURSE_DATA with
        learningOutcomes := [{ id := "lo-5", text := "x" }] } 5).learningOutcomes
      = [{ id := "lo-5", text := "x" }, { id := "lo-5", text := "" }]
    ∧ ¬ ((addOutcome { INITIAL_COURSE_DATA with
        learningOutcomes := [{ id := "lo-5", text := "x" }] } 5).learningOutcomes.map
          LearningOutcomeItem.id).Nodup := by
  refine ⟨by decide, by decide⟩

/-- C8 amended: `addOutcome` appends exactly one item with empty text and
identifier `lo-<Date.now()>` to the end of the outcomes list, leaving the
existing outcomes and every other field unchanged; the new identifier is
distinct from the identifier of every existing outcome provided that identifier
does not already occur in the list (i.e. no existing outcome was created at the
same millisecond). -/
theorem addOutcome_appends_one_fresh (doc : CourseData) (now : Nat)
    (h : ("lo-" ++ toString now) ∉ doc.learningOutcomes.map LearningOutcomeItem.id) :
    (addOutcome doc now).learningOutcomes
      = doc.learningOutcomes ++ [{ id := "lo-" ++ toString now, text := "" }]
    ∧ (∀ x ∈ doc.learningOutcomes, x.id ≠ "lo-" ++ toString now)
    ∧ addOutcome doc now = { doc with learningOutcomes := (addOutcome doc now).learningOutcomes } :=
  ⟨rfl, fun _ hx heq => h (heq ▸ List.mem_map_of_mem LearningOutcomeItem.id hx), rfl⟩

/-- Witness for the amended C8 on the initial document at millisecond 7. -/
theorem addOutcome_appends_one_fresh_witness :
    (addOutcome INITIAL_COURSE_DATA 7).learningOutcomes
      = INITIAL_COURSE_DATA.learningOutcomes ++ [{ id := "lo-" ++ toString 7, text := "" }]
    ∧ (∀ x ∈ INITIAL_COURSE_DATA.learningOutcomes, x.id ≠ "lo-" ++ toString 7) :=
  ⟨(addOutcome_appends_one_fresh INITIAL_COURSE_DATA 7 (by decide)).1,
   (addOutcome_appends_one_fresh INITIAL_COURSE_DATA 7 (by decide)).2.1⟩

/-! ## C4 — markdown export: table column counts

Evaluating the embedded row builders shows the bug: the header and separator
lines of the session-plan table have 5 pipe-delimited columns (6 pipes) while
every data row has 6 columns (7 pipes) — the data rows emit the module name as
an extra first column that the header does not declare.  The escaping part of
the template does hold: a data row contains no newline even when a cell does. -/

/-- C4 evaluation at the failing input: for a concrete session-plan row,
the header and separator rows of `exportToMarkdown`'s table have 5 columns while
the data row has 6, and the data row stays on a single line despite the newline
inside its `method` cell. -/
theorem exportToMarkdown_table_columns_eval :
    pipeCount sessionPlanHeaderRow = 6
    ∧ pipeCount sessionPlanSeparatorRow = 6
    ∧ pipeCount (sessionPlanDataRow
        { id := "sp-1", module := "Introduction", learningPoints := ["1.1 Intro", "1.2 Setup"]
          resources := "PPT", method := "Lecture: explain\nActivity: do"
          duration := "30 mins", slideNo := "1-5" }) = 7
    ∧ (sessionPlanDataRow
        { id := "sp-1", module := "Introduction", learningPoints := ["1.1 Intro", "1.2 Setup"]
          resources := "PPT", method := "Lecture: explain\nActivity: do"
          duration := "30 mins", slideNo := "1-5" }).data.count '\n' = 0 := by
  refine ⟨by decide, by decide, by decide, by decide⟩

/-! ## C10 — JSON import -/

/-- C10 counterexample: a file whose `courseTitle` is present but empty is
not stored with `"" + " (Imported)"`: the `json.courseTitle || "Imported Course"`
fallback also fires on the empty string, so the stored title is
`"Imported Course (Imported)"`. -/
theorem handleFileImport_empty_title_counterexample :
    (handleFileImport
        (some { courseTitle := some "", modules := some [], sessionPlan := some [] }) 99 "fresh").1
      = some { courseTitle := some "Imported Course (Imported)"
               modules := some [], sessionPlan := some []
               id := some "fresh", lastModified := some 99 }
    ∧ some "Imported Course (Imported)" ≠ some ("" ++ " (Imported)") := by
  refine ⟨by decide, by decide⟩

/-- C10 amended: the import stores a course iff the file parses and the
parsed object has `modules` and `sessionPlan` fields; nothing is stored on parse
failure or rejection (one alert each); on acceptance the stored copy keeps every
parsed field except that `courseTitle` becomes the original title (or
"Imported Course" when absent or empty) with " (Imported)" appended,
`lastModified` becomes the import time, and the id is the fresh identifier when
none is present or the present one is empty; and every file produced by the JSON
export of a course is accepted on re-import. -/
theorem handleFileImport_spec (now : Nat) (freshId : String) :
    handleFileImport none now freshId = (none, ["Failed to parse JSON file."])
    ∧ (∀ f : CourseFile, (f.modules.isSome && f.sessionPlan.isSome) = false →
        handleFileImport (some f) now freshId = (none, ["Invalid course file format."]))
    ∧ (∀ f : CourseFile, (f.modules.isSome && f.sessionPlan.isSome) = true →
        handleFileImport (some f) now freshId =
          (some { f with
                  id := some (jsOrStr f.id freshId)
                  lastModified := some now
                  courseTitle := some (jsOrStr f.courseTitle "Imported Course" ++ " (Imported)") },
           ["Course imported successfully!"]))
    ∧ (∀ c : CourseData, ((handleFileImport (some (courseToFile c)) now freshId).1).isSome = true) := by
  refine ⟨rfl, ?_, ?_, ?_⟩
  · intro f h
    simp [handleFileImport, h]
  · intro f h
    simp [handleFileImport, h]
  · intro c
    simp [handleFileImport, courseToFile]

/-- Witness for the amended C10: a parse failure, a rejected file, an accepted
file, and a re-imported export. -/
theorem handleFileImport_spec_witness :
    handleFileImport none 99 "fresh" = (none, ["Failed to parse JSON file."])
    ∧ handleFileImport (some { modules := some [] }) 99 "fresh"
        = (none, ["Invalid course file format."])
    ∧ handleFileImport
        (some { courseTitle := some "My Course", modules := some [], sessionPlan := some [] })
        99 "fresh"
      = (some { courseTitle := some "My Course (Imported)"
                modules := some [], sessionPlan := some []
                id := some "fresh", lastModified := some 99 },
         ["Course imported successfully!"])
    ∧ ((handleFileImport (some (courseToFile INITIAL_COURSE_DATA)) 99 "fresh").1).isSome = true := by
  refine ⟨(handleFileImport_spec 99 "fresh").1, ?_, ?_, (handleFileImport_spec 99 "fresh").2.2.2 INITIAL_COURSE_DATA⟩
  · exact (handleFileImport_spec 99 "fresh").2.1 { modules := some [] } (by decide)
  · have h := (handleFileImport_spec 99 "fresh").2.2.1
      { courseTitle := some "My Course", modules := some [], sessionPlan := some [] } (by decide)
    simpa using h

/-! ## C7 — drag-and-drop reordering -/

/-- A concrete document with prefixed ids, for evaluating the drag handlers. -/
def dragDocA : CourseData :=
  { INITIAL_COURSE_DATA with
    learningOutcomes := [{ id := "lo-1", text := "O1" }, { id := "lo-2", text := "O2" }]
    modules :=
      [{ id := "mod-1", title := "M1",
         subTopics := [{ id := "sub-1", text := "S1" }, { id := "sub-2", text := "S2" }] },
       { id := "mod-2", title := "M2",
         subTopics := [{ id := "sub-9", text := "S9" }] }]
    sessionPlan :=
      [{ id := "sp-1", module := "M1", learningPoints := [], resources := "", method := "",
         duration := "", slideNo := "" },
       { id := "sp-2", module := "M2", learningPoints := [], resources := "", method := "",
         duration := "", slideNo := "" }] }

/-- A concrete document whose module ids do not carry the `mod-` prefix (such
documents are reachable through JSON import and load). -/
def dragDocB : CourseData :=
  { INITIAL_COURSE_DATA with
    modules := [{ id := "a", title := "A", subTopics := [] },
                { id := "b", title := "B", subTopics := [] }] }

/-- C7 counterexample: a drag whose active and over identifiers both occur
in the modules list but lack the `mod-` prefix changes nothing, although the
claim asserts the list is replaced by the remove-and-reinsert result (which here
differs from the original list). -/
theorem dragEnd_unprefixed_counterexample :
    handleDragEndModulesStep dragDocB "a" "b" = dragDocB
    ∧ dragDocB.modules.any (fun m => m.id == "a") = true
    ∧ dragDocB.modules.any (fun m => m.id == "b") = true
    ∧ arrayMove dragDocB.modules
        (dragDocB.modules.findIdx (fun m => m.id == "a"))
        (dragDocB.modules.findIdx (fun m => m.id == "b"))
      ≠ dragDocB.modules := by
  refine ⟨by decide, by decide, by decide, by decide⟩

/-- C7 amended: for every drag-end event whose active and over
identifiers both occur in the same list, the handler replaces that list by the
dnd-kit remove-and-reinsert move of the matching items — a permutation of the
old list — and leaves every other field unchanged; for the modules step this
requires the identifiers to carry their `mod-`/`sub-` prefixes (which all
app-created ids do), a drag with unprefixed identifiers changes nothing, and a
sub-topic drag whose target lies in a different module changes nothing. -/
theorem dragEnd_reorder_spec :
    (∀ (doc : CourseData) (a o : String),
        doc.learningOutcomes.any (fun x => x.id == a) = true →
        doc.learningOutcomes.any (fun x => x.id == o) = true →
        handleDragEndOutcomes doc a o =
          { doc with
            learningOutcomes := arrayMove doc.learningOutcomes
              (doc.learningOutcomes.findIdx (fun x => x.id == a))
              (doc.learningOutcomes.findIdx (fun x => x.id == o)) }
        ∧ (handleDragEndOutcomes doc a o).learningOutcomes.Perm doc.learningOutcomes)
    ∧ (∀ (doc : CourseData) (a o : String),
        doc.sessionPlan.any (fun x => x.id == a) = true →
        doc.sessionPlan.any (fun x => x.id == o) = true →
        handleDragEndSessionPlan doc a o =
          { doc with
            sessionPlan := arrayMove doc.sessionPlan
              (doc.sessionPlan.findIdx (fun x => x.id == a))
              (doc.sessionPlan.findIdx (fun x => x.id == o)) }
        ∧ (handleDragEndSessionPlan doc a o).sessionPlan.Perm doc.sessionPlan)
    ∧ (∀ (doc : CourseData) (a o : String),
        strStartsWith a "mod-" = true → strStartsWith o "mod-" = true →
        doc.modules.any (fun m => m.id == a) = true →
        doc.modules.any (fun m => m.id == o) = true →
        handleDragEndModulesStep doc a o =
          { doc with
            modules := arrayMove doc.modules
              (doc.modules.findIdx (fun m => m.id == a))
              (doc.modules.findIdx (fun m => m.id == o)) }
        ∧ (handleDragEndModulesStep doc a o).modules.Perm doc.modules)
    ∧ (∀ (doc : CourseData) (a o : String) (k : Nat) (m : ModuleItem),
        strStartsWith a "sub-" = true →
        doc.modules.findIdx? (fun mm => mm.subTopics.any (fun s => s.id == a)) = some k →
        doc.modules.get? k = some m →
        m.subTopics.any (fun s => s.id == o) = true →
        handleDragEndModulesStep doc a o =
          { doc with
            modules := doc.modules.set k
              { m with
                subTopics := arrayMove m.subTopics
                  (m.subTopics.findIdx (fun s => s.id == a))
                  (m.subTopics.findIdx (fun s => s.id == o)) } }
        ∧ (arrayMove m.subTopics
            (m.subTopics.findIdx (fun s => s.id == a))
            (m.subTopics.findIdx (fun s => s.id == o))).Perm m.subTopics)
    ∧ (∀ (doc : CourseData) (a o : String) (k : Nat) (m : ModuleItem),
        strStartsWith a "sub-" = true →
        doc.modules.findIdx? (fun mm => mm.subTopics.any (fun s => s.id == a)) = some k →
        doc.modules.get? k = some m →
        m.subTopics.any (fun s => s.id == o) = false →
        handleDragEndModulesStep doc a o = doc) := by
  refine ⟨?_, ?_, ?_, ?_, ?_⟩
  · intro doc a o ha ho
    have hia : doc.learningOutcomes.findIdx (fun x => x.id == a) < doc.learningOutcomes.length :=
      List.findIdx_lt_length_of_exists (by simpa [List.any_eq_true] using ha)
    have hio : doc.learningOutcomes.findIdx (fun x => x.id == o) < doc.learningOutcomes.length :=
      List.findIdx_lt_length_of_exists (by simpa [List.any_eq_true] using ho)
    by_cases hne : a = o
    · subst hne
      exact ⟨by simp [handleDragEndOutcomes, arrayMove_same], by simp [handleDragEndOutcomes]⟩
    · have hguard : (a != o) = true := by simpa using hne
      constructor
      · simp [handleDragEndOutcomes, hguard]
      · simp only [handleDragEndOutcomes, hguard, if_pos]
        exact arrayMove_perm _ _ _ hia hio
  · intro doc a o ha ho
    have hia : doc.sessionPlan.findIdx (fun x => x.id == a) < doc.sessionPlan.length :=
      List.findIdx_lt_length_of_exists (by simpa [List.any_eq_true] using ha)
    have hio : doc.sessionPlan.findIdx (fun x => x.id == o) < doc.sessionPlan.length :=
      List.findIdx_lt_length_of_exists (by simpa [List.any_eq_true] using ho)
    by_cases hne : a = o
    · subst hne
      exact ⟨by simp [handleDragEndSessionPlan, arrayMove_same], by simp [handleDragEndSessionPlan]⟩
    · have hguard : (a != o) = true := by simpa using hne
      constructor
      · simp [handleDragEndSessionPlan, hguard]
      · simp only [handleDragEndSessionPlan, hguard, if_pos]
        exact arrayMove_perm _ _ _ hia hio
  · intro doc a o hpa hpo ha ho
    have hia : doc.modules.findIdx (fun m => m.id == a) < doc.modules.length :=
      List.findIdx_lt_length_of_exists (by simpa [List.any_eq_true] using ha)
    have hio : doc.modules.findIdx (fun m => m.id == o) < doc.modules.length :=
      List.findIdx_lt_length_of_exists (by simpa [List.any_eq_true] using ho)
    constructor
    · simp [handleDragEndModulesStep, modulesDragDispatch, hpa, hpo]
    · simp only [handleDragEndModulesStep, modulesDragDispatch, hpa, hpo, if_pos]
      exact arrayMove_perm _ _ _ hia hio
  · intro doc a o k m hpa hfind hget hany
    have hpm : strStartsWith a "mod-" = false := sub_not_mod a hpa
    have hget2 : doc.modules[k]? = some m := by
      rw [← List.get?_eq_getElem?]
      exact hget
    have hmem : m.subTopics.any (fun s => s.id == a) = true := by
      have h := List.findIdx?_of_eq_some hfind
      rw [hget2] at h
      simpa using h
    have hany2 : ∃ x ∈ m.subTopics, x.id = o := by
      simpa [List.any_eq_true] using hany
    have hia : m.subTopics.findIdx (fun s => s.id == a) < m.subTopics.length :=
      List.findIdx_lt_length_of_exists (by simpa [List.any_eq_true] using hmem)
    have hio : m.subTopics.findIdx (fun s => s.id == o) < m.subTopics.length :=
      List.findIdx_lt_length_of_exists (by simpa [List.any_eq_true] using hany)
    constructor
    · simp [handleDragEndModulesStep, modulesDragDispatch, hpa, hpm, hfind, hget2, hany2]
    · exact arrayMove_perm _ _ _ hia hio
  · intro doc a o k m hpa hfind hget hany
    have hpm : strStartsWith a "mod-" = false := sub_not_mod a hpa
    have hget2 : doc.modules[k]? = some m := by
      rw [← List.get?_eq_getElem?]
      exact hget
    have hany2 : ¬ ∃ x ∈ m.subTopics, x.id = o := by
      simpa [List.any_eq_true] using hany
    simp [handleDragEndModulesStep, modulesDragDispatch, hpa, hpm, hfind, hget2, hany2]

/-- Witness for the amended C7 on `dragDocA`: each handler, applied to concrete
in-list identifiers, permutes exactly its list; a cross-module sub-topic drag
changes nothing. -/
theorem dragEnd_reorder_spec_witness :
    (handleDragEndOutcomes dragDocA "lo-1" "lo-2").learningOutcomes.Perm dragDocA.learningOutcomes
    ∧ (handleDragEndSessionPlan dragDocA "sp-2" "sp-1").sessionPlan.Perm dragDocA.sessionPlan
    ∧ (handleDragEndModulesStep dragDocA "mod-1" "mod-2").modules.Perm dragDocA.modules
    ∧ (arrayMove ([{ id := "sub-1", text := "S1" }, { id := "sub-2", text := "S2" }] : List SubTopicItem)
        (([{ id := "sub-1", text := "S1" }, { id := "sub-2", text := "S2" }] : List SubTopicItem).findIdx
          (fun s => s.id == "sub-1"))
        (([{ id := "sub-1", text := "S1" }, { id := "sub-2", text := "S2" }] : List SubTopicItem).findIdx
          (fun s => s.id == "sub-2"))).Perm
        ([{ id := "sub-1", text := "S1" }, { id := "sub-2", text := "S2" }] : List SubTopicItem)
    ∧ handleDragEndModulesStep dragDocA "sub-1" "sub-9" = dragDocA := by
  refine ⟨?_, ?_, ?_, ?_, ?_⟩
  · exact (dragEnd_reorder_spec.1 dragDocA "lo-1" "lo-2" (by decide) (by decide)).2
  · exact (dragEnd_reorder_spec.2.1 dragDocA "sp-2" "sp-1" (by decide) (by decide)).2
  · exact (dragEnd_reorder_spec.2.2.1 dragDocA "mod-1" "mod-2"
      (by decide) (by decide) (by decide) (by decide)).2
  · exact (dragEnd_reorder_spec.2.2.2.1 dragDocA "sub-1" "sub-2" 0
      { id := "mod-1", title := "M1",
        subTopics := [{ id := "sub-1", text := "S1" }, { id := "sub-2", text := "S2" }] }
      (by decide) (by decide) rfl (by decide)).2
  · exact dragEnd_reorder_spec.2.2.2.2 dragDocA "sub-1" "sub-9" 0
      { id := "mod-1", title := "M1",
        subTopics := [{ id := "sub-1", text := "S1" }, { id := "sub-2", text := "S2" }] }
      (by decide) (by decide) rfl (by decide)

/-! ## C9 — `mod-` / `sub-` identifier prefixes -/

/-- A Boolean prefix of a list is a prefix of that list followed by anything. -/
theorem isPrefixOf_append_of (l : List Char) :
    ∀ (m n : List Char), l.isPrefixOf m = true → l.isPrefixOf (m ++ n) = true := by
  induction l with
  | nil =>
    intro m n _
    simp [List.isPrefixOf]
  | cons a as ih =>
    intro m n h
    cases m with
    | nil => simp [List.isPrefixOf] at h
    | cons b bs =>
      simp only [List.isPrefixOf, List.cons_append, Bool.and_eq_true] at h ⊢
      exact ⟨h.1, ih bs n h.2⟩

/-- The `startsWith` survives extending the string on the right. -/
theorem strStartsWith_extend (s t p : String) (h : strStartsWith s p = true) :
    strStartsWith (s ++ t) p = true := by
  unfold strStartsWith at h ⊢
  rw [String.data_append]
  exact isPrefixOf_append_of _ _ _ h

/-- No string starts with both `mod-` and `sub-` (converse direction). -/
theorem mod_not_sub (s : String) (h : strStartsWith s "mod-" = true) :
    strStartsWith s "sub-" = false := by
  cases hs : strStartsWith s "sub-" with
  | false => rfl
  | true =>
    rw [sub_not_mod s hs] at h
    exact absurd h (by simp)

/-- Every module id in the list starts with `mod-` and every sub-topic id in it
with `sub-`. -/
abbrev moduleIdsPrefixed (l : List ModuleItem) : Prop :=
  ∀ m ∈ l, strStartsWith m.id "mod-" = true
    ∧ ∀ s ∈ m.subTopics, strStartsWith s.id "sub-" = true

/-- The id-prefix invariant on a course document's modules. -/
abbrev courseIdsPrefixed (doc : CourseData) : Prop :=
  moduleIdsPrefixed doc.modules

/-- C9: module ids start with `mod-` and sub-topic ids with `sub-` in the
initial document; the invariant is established by new-draft creation and
AI generation and preserved by add-module and add-sub-topic; and the
modules-step drag dispatch selects module reordering exactly for `mod-`-prefixed
dragged ids and sub-topic reordering exactly for `sub-`-prefixed ones. -/
theorem moduleIdPrefixInvariant :
    courseIdsPrefixed INITIAL_COURSE_DATA
    ∧ (∀ (d : UserDefaults) (now : Nat), courseIdsPrefixed (getInitialData d now))
    ∧ (∀ (doc : CourseData) (now : Nat),
        courseIdsPrefixed doc → courseIdsPrefixed (addModule doc now))
    ∧ (∀ (doc : CourseData) (k now : Nat),
        courseIdsPrefixed doc → courseIdsPrefixed (addSubTopic doc k now))
    ∧ (∀ (cleanFn : String → String) (now : Nat) (ms : List ApiModule),
        moduleIdsPrefixed (attachModuleIds cleanFn now ms))
    ∧ (∀ a : String,
        (modulesDragDispatch a = .moduleDrag ↔ strStartsWith a "mod-" = true)
        ∧ (modulesDragDispatch a = .subDrag ↔ strStartsWith a "sub-" = true)) := by
  refine ⟨by decide, ?_, ?_, ?_, ?_, ?_⟩
  · intro d now m hm
    simp only [getInitialData, List.mem_singleton] at hm
    subst hm
    refine ⟨strStartsWith_append "mod-" _, ?_⟩
    intro s hs
    simp only [List.mem_singleton] at hs
    subst hs
    exact strStartsWith_append "sub-" _
  · intro doc now h m hm
    rcases List.mem_append.mp hm with hmem | hnew
    · exact h m hmem
    · simp only [List.mem_singleton] at hnew
      subst hnew
      refine ⟨strStartsWith_append "mod-" _, ?_⟩
      intro s hs
      simp only [List.mem_singleton] at hs
      subst hs
      exact strStartsWith_append "sub-" _
  · intro doc k now h m hm
    obtain ⟨j, m0, hm0, rfl⟩ := mem_mapWithIdx hm
    by_cases hj : j = k
    · simp only [hj, if_pos rfl]
      refine ⟨(h m0 hm0).1, ?_⟩
      intro s hs
      rcases List.mem_append.mp hs with h1 | h2
      · exact (h m0 hm0).2 s h1
      · simp only [List.mem_singleton] at h2
        subst h2
        exact strStartsWith_append "sub-" _
    · simp only [if_neg hj]
      exact h m0 hm0
  · intro cleanFn now ms m hm
    obtain ⟨j, m0, _, rfl⟩ := mem_mapWithIdx hm
    constructor
    · exact strStartsWith_extend _ _ _ (strStartsWith_extend _ _ _
        (strStartsWith_append "mod-" _))
    · intro s hs
      obtain ⟨j2, t, _, rfl⟩ := mem_mapWithIdx hs
      exact strStartsWith_extend _ _ _ (strStartsWith_extend _ _ _
        (strStartsWith_extend _ _ _ (strStartsWith_extend _ _ _
          (strStartsWith_append "sub-" _))))
  · intro a
    by_cases hm : strStartsWith a "mod-" = true
    · have hs : strStartsWith a "sub-" = false := mod_not_sub a hm
      exact ⟨by simp [modulesDragDispatch, hm], by simp [modulesDragDispatch, hm, hs]⟩
    · have hm2 : strStartsWith a "mod-" = false := by simpa using hm
      by_cases hs : strStartsWith a "sub-" = true
      · exact ⟨by simp [modulesDragDispatch, hm2, hs],
               by simp [modulesDragDispatch, hm2, hs]⟩
      · have hs2 : strStartsWith a "sub-" = false := by simpa using hs
        exact ⟨by simp [modulesDragDispatch, hm2, hs2],
               by simp [modulesDragDispatch, hm2, hs2]⟩

/-- Witness for C9 at concrete documents, timestamps and identifiers. -/
theorem moduleIdPrefixInvariant_witness :
    courseIdsPrefixed (addModule INITIAL_COURSE_DATA 7)
    ∧ courseIdsPrefixed (addSubTopic INITIAL_COURSE_DATA 0 8)
    ∧ courseIdsPrefixed (getInitialData {} 3)
    ∧ moduleIdsPrefixed (attachModuleIds (fun t => t) 4 [{ title := "M", subTopics := ["1.1 X"] }])
    ∧ modulesDragDispatch "mod-9" = .moduleDrag
    ∧ modulesDragDispatch "sub-9" = .subDrag :=
  ⟨moduleIdPrefixInvariant.2.2.1 INITIAL_COURSE_DATA 7 (by decide),
   moduleIdPrefixInvariant.2.2.2.1 INITIAL_COURSE_DATA 0 8 (by decide),
   moduleIdPrefixInvariant.2.1 {} 3,
   moduleIdPrefixInvariant.2.2.2.2.1 (fun t => t) 4 [{ title := "M", subTopics := ["1.1 X"] }],
   (moduleIdPrefixInvariant.2.2.2.2.2 "mod-9").1.mpr (by decide),
   (moduleIdPrefixInvariant.2.2.2.2.2 "sub-9").2.mpr (by decide)⟩
